import Mathlib

/-!
Shallow embedding of the scachepy caching engine (src/scachepy/backends.py and
src/scachepy/scachepy.py).

Python dictionaries are modelled as ordered association lists with in-place
update (an existing key keeps its position, a new key is appended), matching
CPython's insertion-ordered dicts.  A compiled regular expression is modelled
as its matching function: a `String -> Option String` returning the first
capture group of a successful `match`, `none` on failure.  Python `None` is the
distinguished value `Obj.vnone`; it doubles as the missing-value sentinel that
`PickleBackend.load` tests with `val is None`.  Exceptions are modelled with
`Except`; `warnings.warn` calls are modelled by returned warning lists, and
bare `print` calls (verbose progress output) are not modelled.
-/

namespace Scachepy

/-- Values stored in a container: Python `None`, scalars, and (nested) dicts.
The dict constructor models every mapping-valued attribute (`uns`, `obsm`,
`obs`, ...) as well as nested dictionaries stored inside them. -/
inductive Obj where
  | vnone
  | vnat (n : Nat)
  | vstr (s : String)
  | dict (es : List (String × Obj))

/-- Python dict assignment `d[k] = v`: replace in place, else append. -/
def dictSet {α : Type} : List (String × α) → String → α → List (String × α)
  | [], k, v => [(k, v)]
  | (k1, v1) :: tl, k, v =>
    if k1 == k then (k, v) :: tl else (k1, v1) :: dictSet tl k v

/-- The AnnData container: its attributes (`uns`, `obsm`, ... present iff
listed), plus `n_obs` and `n_vars` (read by the shape-inference branch of
`PickleBackend.load`). -/
structure AnnData where
  attrs : List (String × Obj)
  nObs : Nat
  nVars : Nat

/-- Python `setattr(adata, attr, v)`. -/
def setAttr (a : AnnData) (attr : String) (v : Obj) : AnnData :=
  { a with attrs := dictSet a.attrs attr v }

/-- Keys of `getattr(adata, attr)` when it is a mapping (`.keys()`). -/
def objKeys : Obj → List String
  | .dict es => es.map Prod.fst
  | _ => []

/-- How a chained subscript `obj[k1][k2]...` fails: `KeyError` on a missing
dict key, `TypeError` when subscripting a non-dict. -/
inductive DescErr where
  | keyError
  | typeError

/-- Chained subscripting `for k in keys: obj = obj[k]` from `_get_val`. -/
def descend : Obj → List String → Except DescErr Obj
  | o, [] => .ok o
  | .dict es, k :: ks =>
    match es.lookup k with
    | some o => descend o ks
    | none => .error .keyError
  | _, _ :: _ => .error .typeError

/-- Errors raised by `PickleBackend.save`: AttributeError; RuntimeError on a
missing key; the AssertionError of ambiguous pattern resolution carrying the
candidate list its message enumerates; TypeError from subscripting a
non-dict; the TypeError raised at backends.py line 177, where the
intersection SET `res` is handed to `_map_watched_keys`, wrapped into a
1-tuple, and hashed by the dict membership test `k in watched_keys`
(line 202) — `unhashableSet`; and the ValueError of the tuple-unpacking slip
at backends.py line 194. -/
inductive SaveErr where
  | attributeMissing (attr : String)
  | keyNotFound (ks : List String)
  | ambiguous (candidates : List String)
  | typeError
  | unhashableSet
  | unpackError

/-- The inner `_get_val(obj, keys, optional)` of `PickleBackend.save`.
`keys = none` returns the whole object; a missing key yields the sentinel
(`Option.none` here) when `optional` or when `skip` was passed, and raises
RuntimeError otherwise.  A TypeError is not caught by the `except KeyError`
clause and propagates. -/
def getVal (obj : Obj) (keys : Option (List String)) (opt skipNF : Bool) :
    Except SaveErr (Option Obj) :=
  match keys with
  | none => .ok (some obj)
  | some ks =>
    match descend obj ks with
    | .ok o => .ok (some o)
    | .error .typeError => .error .typeError
    | .error .keyError =>
      if opt then .ok none
      else if skipNF then .ok none
      else .error (.keyNotFound ks)

/-- Python substring containment `needle in hay`. -/
def strContains (needle hay : String) : Bool :=
  (List.range (hay.data.length + 1)).any
    (fun i => needle.data.isPrefixOf (hay.data.drop i))

/-- Python `s.endswith(post)` (structural, over the character list). -/
def strEndsWith (s post : String) : Bool :=
  post.data.isSuffixOf s.data

/-- Python `s[:-n]` for a positive `n` (structural, over the character
list). -/
def strDropRight (s : String) (n : Nat) : String :=
  ⟨s.data.take (s.data.length - n)⟩

/-- The key specification bound to one attribute of a rule: Python `None`, a
literal string, a compiled pattern, or an iterable of strings. -/
inductive KeySpec where
  | noKey
  | litKey (s : String)
  | patKey (matcher : String → Option String)
  | iterKey (ks : List String)

/-- The `keyhint` disambiguator: a compiled pattern (modelled by its
`match`-test), a tuple/list of substrings that must all occur, or a single
substring. -/
inductive KeyHint where
  | hpat (matcher : String → Bool)
  | hlist (parts : List String)
  | hsub (part : String)

/-- The `filter_fn` built from `keyhint` inside `_convert_key`. -/
def hintFilter : KeyHint → String → Bool
  | .hpat m, v => m v
  | .hlist ps, v => ps.all (fun k => strContains k v)
  | .hsub p, v => strContains p v

/-- Result of `_convert_key`: the sentinel (optional pattern with no matches),
a single resolved key (paired with `check_for_mul_keys = False`), or the
keyhint-filtered candidate tuple (paired with `check_for_mul_keys = True`). -/
inductive ConvRes where
  | sentinel
  | single (k : Option String)
  | multi (ks : List String)

/-- The dict comprehension
`km = {key.match(k).groups()[0]: k for k in keys if key.match(k) is not None}`
over the category's existing keys, with Python dict overwrite semantics. -/
def buildKm (p : String → Option String) (ks : List String) :
    List (String × String) :=
  ks.foldl
    (fun km k =>
      match p k with
      | some c => dictSet km c k
      | none => km)
    []

/-- The inner `_convert_key(attr, key, watcher_key, optional)` of
`PickleBackend.save`.  For a pattern key it intersects the captured names
with `possible_vals`.  When the intersection is empty and more than one key
matches, the AssertionError (no `keyhint`) enumerates `set(km.values())`,
and a supplied `keyhint` filters `km.values()`.  When MORE than one captured
name intersects, line 177 first calls `_map_watched_keys(watched_keys, res)`
with the set `res`: `_map_watched_keys` wraps the set into a 1-tuple and
evaluates `res in watched_keys` (line 202), hashing the set against the
dict — TypeError, unconditionally, before the assert and whether or not a
`keyhint` was supplied.  The iterable branch always raises too: line 194
unpacks a 1-tuple into two names (`key, _ = ... ,`), a ValueError. -/
def convertKey (adata : AnnData) (possibleVals : List String)
    (watchers : List (String × List (String × String)))
    (keyhint : Option KeyHint) (attr : String) (key : KeySpec)
    (watcherKey : String) (opt : Bool) : Except SaveErr ConvRes :=
  let watchedKeys := (watchers.lookup watcherKey).getD []
  match key with
  | .noKey => .ok (.single none)
  | .litKey s => .ok (.single (some ((watchedKeys.lookup s).getD s)))
  | .patKey p =>
    let km := buildKm p (objKeys ((adata.attrs.lookup attr).getD (Obj.dict [])))
    let res := (km.map Prod.fst).filter (fun c => possibleVals.contains c)
    if res.length = 0 then
      if km.length = 0 ∧ opt then .ok .sentinel
      else if ¬ km.length = 1 then
        match keyhint with
        | none => .error (.ambiguous (km.map Prod.snd))
        | some h => .ok (.multi ((km.map Prod.snd).filter (hintFilter h)))
      else .ok (.single (km.head?.map Prod.snd))
    else if ¬ res.length = 1 then .error .unhashableSet
    else .ok (.single (km.lookup (res.headD "")))
  | .iterKey _ => .error .unpackError

/-- A stored key tuple: `(None,)` for a whole-category slot, else a tuple of
strings.  `save` only ever emits `(None,)` or a single-string tuple; `load`
handles longer all-string tuples as well, and both shapes are covered here. -/
inductive EKey where
  | slot
  | path (ks : List String)

/-- One `((attr, key), value)` pair of the pickled record. -/
abbrev Entry := (String × EKey) × Obj

/-- The inner `_get_data(adata, attr, key, opt)` of `PickleBackend.save`:
fetch the value, drop it when it is the sentinel, and normalize the key to a
tuple. -/
def getData (adata : AnnData) (skipNF : Bool) (attr : String)
    (key : Option String) (opt : Bool) : Except SaveErr (Option Entry) :=
  match adata.attrs.lookup attr with
  | none => .error (.attributeMissing attr)
  | some obj =>
    match getVal obj (key.map (fun k => [k])) opt skipNF with
    | .error e => .error e
    | .ok none => .ok none
    | .ok (some v) =>
      match key with
      | none => .ok (some ((attr, EKey.slot), v))
      | some k => .ok (some ((attr, EKey.path [k]), v))

/-- Python `zip` over four sequences: truncates to the shortest. -/
def zip4 {α β γ δ : Type} : List α → List β → List γ → List δ →
    List (α × β × γ × δ)
  | a :: as, b :: bs, c :: cs, d :: ds => (a, b, c, d) :: zip4 as bs cs ds
  | _, _, _, _ => []

/-- The `for k in key: _get_data(...)` loop of the `check_for_mul_keys`
branch. -/
def collectMulti (adata : AnnData) (skipNF : Bool) (attr : String)
    (opt : Bool) : List String → Except SaveErr (List Entry)
  | [] => .ok []
  | k :: ks =>
    match getData adata skipNF attr (some k) opt with
    | .error e => .error e
    | .ok none => collectMulti adata skipNF attr opt ks
    | .ok (some d) =>
      match collectMulti adata skipNF attr opt ks with
      | .error e => .error e
      | .ok rest => .ok (d :: rest)

/-- The main loop of `PickleBackend.save` over
`zip(attrs, keys, watcher_keys, is_optional)`.  A missing attribute is skipped
when optional and raises AttributeError otherwise (`hasattr(None, attr)` is
false, so a `None` source object behaves like one with no attributes). -/
def saveLoop (adataQ : Option AnnData) (keyhint : Option KeyHint)
    (watchers : List (String × List (String × String))) (skipNF : Bool)
    (possibleVals : List String) :
    List (String × KeySpec × String × Bool) → Except SaveErr (List Entry)
  | [] => .ok []
  | (attr, key, wk, opt) :: rest =>
    let present :=
      match adataQ with
      | some a => (a.attrs.lookup attr).isSome
      | none => false
    if present = false then
      if opt then saveLoop adataQ keyhint watchers skipNF possibleVals rest
      else .error (.attributeMissing attr)
    else
      match adataQ with
      | none => .error (.attributeMissing attr)
      | some adata =>
        match convertKey adata possibleVals watchers keyhint attr key wk opt with
        | .error e => .error e
        | .ok ConvRes.sentinel =>
          saveLoop adataQ keyhint watchers skipNF possibleVals rest
        | .ok (ConvRes.multi ks) =>
          match collectMulti adata skipNF attr opt ks with
          | .error e => .error e
          | .ok here =>
            match saveLoop adataQ keyhint watchers skipNF possibleVals rest with
            | .error e => .error e
            | .ok more => .ok (here ++ more)
        | .ok (ConvRes.single k) =>
          match getData adata skipNF attr k opt with
          | .error e => .error e
          | .ok d =>
            match saveLoop adataQ keyhint watchers skipNF possibleVals rest with
            | .error e => .error e
            | .ok more => .ok (d.toList ++ more)

/-- `PickleBackend.save(adata, fname, attrs, keys, *, keyhint, watcher_keys,
watchers, skip=..., possible_vals=..., is_optional=...)`: builds the record
that `pickle.dump` then writes (the returned entry list IS the file
contents). -/
def pbSave (adataQ : Option AnnData) (attrs : List String)
    (keySpecs : List KeySpec) (keyhint : Option KeyHint)
    (watcherKeys : List String)
    (watchers : List (String × List (String × String)))
    (skipNF : Bool) (possibleVals : List String) (isOptional : List Bool) :
    Except SaveErr (List Entry) :=
  saveLoop adataQ keyhint watchers skipNF possibleVals
    (zip4 attrs keySpecs watcherKeys isOptional)

/-- Warning emitted by `PickleBackend.load` when a stored sentinel value is
skipped under `skip=True`. -/
inductive LoadWarn where
  | missingSkipped (attr : String)

/-- Errors raised by `PickleBackend.load`: the RuntimeError for a stored
sentinel value without `skip`; the NameError from the undefined name `keys`
in `assert len(keys) == 1` (backends.py line 91, reached when the target
attribute is absent but its shape is inferable); the AttributeError for an
absent attribute that is neither `obsm` nor `varm`; IndexError/TypeError from
degenerate key tuples; and the ValueError raised by
`zip(*pickle.load(fin))` on an empty record. -/
inductive LoadErr where
  | missingValue (attr : String)
  | nameError
  | attributeError
  | indexError
  | typeError
  | emptyUnpack

/-- Python `val is None` for a stored value. -/
def isNoneObj : Obj → Bool
  | .vnone => true
  | _ => false

/-- The write of one value at `key[:-1]` + `key[-1]`, auto-creating
intermediate dicts (`if k not in at.keys(): at[k] = dict()`).  Descending
into an existing non-dict value fails (`TypeError` in Python, `none` here). -/
def setPathObj : Obj → List String → String → Obj → Option Obj
  | .dict es, [], last, v => some (.dict (dictSet es last v))
  | .dict es, k :: ks, last, v =>
    match setPathObj ((es.lookup k).getD (Obj.dict [])) ks last v with
    | some sub => some (.dict (dictSet es k sub))
    | none => none
  | _, _, _, _ => none

/-- Processing of one stored `((attr, key), val)` pair by
`PickleBackend.load`.  A sentinel value raises RuntimeError, or warns and
skips under `skip=True`.  A missing attribute computes an inferred shape for
`obsm`/`varm` and then evaluates `assert len(keys) == 1`, where `keys` is an
undefined name: NameError; other attributes raise AttributeError.  Otherwise
the value is written at the key path (the `verbose` overwrite notice is a
plain print and is not modelled). -/
def loadEntry (verbose skipNF : Bool) (a : AnnData) (e : Entry) :
    AnnData × List LoadWarn × Option LoadErr :=
  let attr := e.1.1
  let key := e.1.2
  let val := e.2
  if isNoneObj val then
    if skipNF = false then (a, [], some (.missingValue attr))
    else (a, [LoadWarn.missingSkipped attr], none)
  else
    match a.attrs.lookup attr with
    | none =>
      if attr = "obsm" ∨ attr = "varm" then (a, [], some LoadErr.nameError)
      else (a, [], some LoadErr.attributeError)
    | some cur =>
      match key with
      | .slot => (setAttr a attr val, [], none)
      | .path ks =>
        match ks.getLast? with
        | none => (a, [], some LoadErr.indexError)
        | some last =>
          match setPathObj cur ks.dropLast last val with
          | some o2 => (setAttr a attr o2, [], none)
          | none => (a, [], some LoadErr.typeError)

/-- The entry loop of `PickleBackend.load`; the container is mutated in place
entry by entry, so an error leaves the entries before it applied. -/
def loadEntries (verbose skipNF : Bool) :
    List Entry → AnnData → AnnData × List LoadWarn × Option LoadErr
  | [], a => (a, [], none)
  | e :: es, a =>
    match loadEntry verbose skipNF a e with
    | (a1, w, some err) => (a1, w, some err)
    | (a1, w, none) =>
      match loadEntries verbose skipNF es a1 with
      | (a2, ws, r) => (a2, w ++ ws, r)

/-- `PickleBackend.load(adata, fname, verbose=..., skip=...)` applied to the
decoded file contents.  `attrs_keys, vals = zip(*pickle.load(fin))` raises
ValueError on an empty record before anything is written. -/
def pbLoad (verbose skipNF : Bool) (entries : List Entry) (a : AnnData) :
    AnnData × List LoadWarn × Option LoadErr :=
  match entries with
  | [] => (a, [], some LoadErr.emptyUnpack)
  | _ => loadEntries verbose skipNF entries a

/-- Reads the container at a stored path (the observation the round-trip
property is about): the whole attribute for a slot key, a chained subscript
for a string tuple. -/
def getAtPath (a : AnnData) (attr : String) (key : EKey) : Option Obj :=
  match a.attrs.lookup attr, key with
  | some o, .slot => some o
  | some o, .path ks =>
    match descend o ks with
    | .ok v => some v
    | .error _ => none
  | none, _ => none

/-- The on-disk state for the one resolved filename a call works with: `none`
when no cache file exists, else the decoded record. -/
abbrev FS := Option (List Entry)

/-- Filename resolution of `_create_cache_fn.wrapper`: fall back to the
default filename and append the extension unless already present.  `none`
means both names were `None` (the subsequent `fname.endswith` would raise and
be caught, yielding a `False` return). -/
def fnameResolve (ext : String) (defFname fname : Option String) :
    Option String :=
  match fname with
  | some f => some (if strEndsWith f ext then f else f ++ ext)
  | none =>
    match defFname with
    | some f => some (if strEndsWith f ext then f else f ++ ext)
    | none => none

/-- The inner `wrapper` of `Cache._create_cache_fn` (the `cache_fn` closure).
With `recache` it calls `backend.save`; the call site passes neither
`watcher_keys` (Python default `{}`, an empty iterable, hence the `[]` here)
nor `is_optional` (default `[False] * len(attrs)`) nor `keyhint` (default
`None`).  Without `recache` it loads when the file exists.  Its `try/except`
converts every exception from either backend call into a `False` result
(`possible_vals` is the set built from the call's arguments, passed in here
already stringified).  Returns the new file state, the possibly mutated
target container, the boolean result, and the load warnings. -/
def cacheFn (ext : String) (defFname : Option String) (attrs : List String)
    (keySpecs : List KeySpec) (target : Option AnnData)
    (fname0 : Option String) (recache verbose skipNF : Bool)
    (possibleVals : List String) (fs : FS) :
    FS × Option AnnData × Bool × List LoadWarn :=
  match fnameResolve ext defFname fname0 with
  | none => (fs, target, false, [])
  | some _ =>
    if recache then
      match pbSave target attrs keySpecs none [] [] skipNF possibleVals
          (List.replicate attrs.length false) with
      | .ok entries => (some entries, target, true, [])
      | .error _ => (fs, target, false, [])
    else
      match fs, target with
      | some entries, some a =>
        match pbLoad verbose skipNF entries a with
        | (a1, ws, none) => (fs, some a1, true, ws)
        | (a1, ws, some _) => (fs, some a1, false, ws)
      | _, _ => (fs, target, false, [])

/-- Modelled from the spec: utils.py (absent from the sources) defines the
well-known transient key under which a plot callback stores the raster buffer
in the container's unstructured mapping; only its identity matters to the
orchestrator. -/
def SC_TMP_PLOT_KEY : String := "sc_tmp_plot_key"

/-- Python `adata.uns[SC_TMP_PLOT_KEY]` (a missing key raises KeyError,
modelled as `none`). -/
def unsGet (a : AnnData) : Option Obj :=
  match a.attrs.lookup "uns" with
  | some (.dict es) => es.lookup SC_TMP_PLOT_KEY
  | _ => none

/-- Python `del adata.uns[SC_TMP_PLOT_KEY]` (`none` when the deletion would
raise KeyError). -/
def unsDel (a : AnnData) : Option AnnData :=
  match a.attrs.lookup "uns" with
  | some (.dict es) =>
    if es.any (fun p => p.1 == SC_TMP_PLOT_KEY) then
      some (setAttr a "uns"
        (Obj.dict (es.filter (fun p => !(p.1 == SC_TMP_PLOT_KEY)))))
    else none
  | _ => none

/-- A computation callback.  `run a` returns the state the passed-in
container object is left in, together with the Python return value (`none`
for an in-place routine, `some` of a container result otherwise).  The
orchestrator leaves the `copy` flag in `kwargs`, so a scanpy-style callback
that honours `copy=True` is one with `run a = (a, some (duplicate of a with
results))`. -/
structure Callback where
  run : AnnData → AnnData × Option AnnData

/-- Per-call flags popped (or, for `copy`, read) from `kwargs` by
`Cache.cache.wrapper`. -/
structure Flags where
  fname : Option String
  force : Bool
  verbose : Bool
  call : Bool
  skipNF : Bool
  copyKw : Bool

/-- The configuration a `Cache.cache(...)` call closes over: the declared
attributes and key specifications (suffixes already stripped), the default
filename, the default callback, and whether this is a plot rule. -/
structure Rule where
  attrs : List String
  keySpecs : List KeySpec
  defFname : Option String
  defaultFn : Option Callback
  isPlot : Bool

/-- Value returned to the caller by `Cache.cache.wrapper`: Python `None`, a
`PIL` image built from the captured buffer, a container, or an
`anndata.Raw`-wrapped container. -/
inductive Ret where
  | nothing
  | image (data : Obj)
  | adataRet (a : AnnData)
  | rawRet (a : AnnData)

/-- Exceptions `Cache.cache.wrapper` itself raises: the missing-filename
assert, the missing-callback RuntimeError, the `assert ret` after a failed
save, and the KeyError of `del adata.uns[SC_TMP_PLOT_KEY]` /
`adata.uns[SC_TMP_PLOT_KEY]` when the transient key is absent. -/
inductive WrapErr where
  | noFname
  | noCallback
  | cachingFailed
  | plotKeyMissing

/-- The final `anndata.Raw(res) if is_raw and res is not None else res`. -/
def retOf (isRaw : Bool) (res : Option AnnData) : Ret :=
  match res with
  | none => Ret.nothing
  | some a => if isRaw then Ret.rawRet a else Ret.adataRet a

/-- The inner `wrapper` of `Cache.cache` — the orchestrator's decision
procedure.  `adata` is the caller's container as found in the arguments;
`cb0` is the explicitly supplied callback, if any.  Crucially, Python's
`adata = adata.copy()` rebinds only the local name: the callback always
receives the ORIGINAL container from `args`/`kwargs` (with `copy` still in
`kwargs`), while the local copy is what the load writes into and, for
`call=False`, what is saved and returned.  The returned tuple is the file
state, the final state of the CALLER's container, the return value, and how
many times the callback was invoked. -/
def wrapper (r : Rule) (ext : String) (isRaw : Bool) (cb0 : Option Callback)
    (possibleVals : List String) (fl : Flags) (fs : FS) (adata : AnnData) :
    Except WrapErr (FS × AnnData × Ret × Nat) :=
  let copy := fl.copyKw && !r.isPlot
  if fl.fname.isNone && r.defFname.isNone then .error WrapErr.noFname
  else
    let cbE : Except WrapErr (Option Callback) :=
      if (fl.call || fl.force) && cb0.isNone then
        match r.defaultFn with
        | none => Except.error WrapErr.noCallback
        | some f => Except.ok (some f)
      else Except.ok cb0
    match cbE with
    | .error e => .error e
    | .ok cbQ =>
      if fl.force then
        match cbQ with
        | none => Except.error WrapErr.noCallback
        | some cb =>
          let ar := cb.run adata
          let a1 := ar.1
          let res := ar.2
          let target := if copy then res else some a1
          match cacheFn ext r.defFname r.attrs r.keySpecs target fl.fname
              true fl.verbose fl.skipNF possibleVals fs with
          | (fs1, _, ok1, _) =>
            if ok1 = false then Except.error WrapErr.cachingFailed
            else if r.isPlot then
              match unsDel a1 with
              | none => Except.error WrapErr.plotKeyMissing
              | some a2 => Except.ok (fs1, a2, Ret.nothing, 1)
            else Except.ok (fs1, a1, retOf isRaw res, 1)
      else
        match cacheFn ext r.defFname r.attrs r.keySpecs (some adata) fl.fname
            false fl.verbose fl.skipNF possibleVals fs with
        | (fs1, workQ, found, _) =>
          let workAfter := workQ.getD adata
          let orig1 := if copy then adata else workAfter
          if found = false then
            let step :=
              if fl.call then
                match cbQ with
                | some cb =>
                  let ar := cb.run orig1
                  (ar.1, ar.2, 1)
                | none => (orig1, none, 0)
              else (orig1, (if copy then some workAfter else none), 0)
            match step with
            | (orig2, res, cnt) =>
              let target := if copy then res else some orig2
              match cacheFn ext r.defFname r.attrs r.keySpecs target fl.fname
                  true false fl.skipNF possibleVals fs1 with
              | (fs2, _, ok2, _) =>
                if ok2 = false then Except.error WrapErr.cachingFailed
                else if r.isPlot then
                  match unsDel orig2 with
                  | none => Except.error WrapErr.plotKeyMissing
                  | some a2 => Except.ok (fs2, a2, Ret.nothing, cnt)
                else Except.ok (fs2, orig2, retOf isRaw res, cnt)
          else
            if r.isPlot then
              match unsGet workAfter with
              | none => Except.error WrapErr.plotKeyMissing
              | some dat =>
                match unsDel workAfter with
                | none => Except.error WrapErr.plotKeyMissing
                | some a2 => Except.ok (fs1, a2, Ret.image dat, 0)
            else if copy = false then Except.ok (fs1, workAfter, Ret.nothing, 0)
            else if isRaw then Except.ok (fs1, adata, Ret.rawRet workAfter, 0)
            else Except.ok (fs1, adata, Ret.adataRet workAfter, 0)

/-! Concrete fixtures used by witnesses and counterexamples. -/

/-- The compiled pattern `re.compile(r"(.+)_graph$")` of the
`velocity_graph` rule, as its match-and-capture function: `match` anchors at
the start and `$` at the end, and the greedy `(.+)` captures everything
before the final `_graph`. -/
def graphPattern (s : String) : Option String :=
  if strEndsWith s "_graph" ∧ 6 < s.data.length then some (strDropRight s 6)
  else none

/-- A container whose unstructured mapping holds `leiden_graph` and
`louvain_graph`. -/
def leidenAdata : AnnData :=
  ⟨[("uns", Obj.dict [("leiden_graph", Obj.vnat 1),
                      ("louvain_graph", Obj.vnat 2)])], 3, 4⟩

/-- A container whose unstructured mapping holds only `louvain_graph`. -/
def louvainOnlyAdata : AnnData :=
  ⟨[("uns", Obj.dict [("louvain_graph", Obj.vnat 2)])], 3, 4⟩

/-- A fresh container: all standard categories present and empty. -/
def freshAdata : AnnData :=
  ⟨[("X", Obj.vnone), ("obs", Obj.dict []), ("var", Obj.dict []),
    ("uns", Obj.dict []), ("obsm", Obj.dict []), ("varm", Obj.dict []),
    ("layers", Obj.dict [])], 3, 4⟩

/-- A container on which the `obsm`/`varm` categories are absent. -/
def noObsmAdata : AnnData := ⟨[("uns", Obj.dict [])], 3, 4⟩

/-- A stored path is resolvable against a fresh container when its attribute
exists there: a slot needs only presence, a key tuple needs a (still empty)
mapping attribute and a nonempty tuple. -/
def resolvableFresh (a : AnnData) (attr : String) : EKey → Prop
  | EKey.slot => (a.attrs.lookup attr).isSome = true
  | EKey.path ks => ks ≠ [] ∧ a.attrs.lookup attr = some (Obj.dict [])

/-- Python `adata.uns[k] = v` for a container whose `uns` is a dict. -/
def unsSet (a : AnnData) (k : String) (v : Obj) : AnnData :=
  match a.attrs.lookup "uns" with
  | some (Obj.dict es) => setAttr a "uns" (Obj.dict (dictSet es k v))
  | _ => a

/-- An in-place callback computing `adata.uns["paga"]` and returning
`None` (the shape of `sc.tl.paga`). -/
def cbPaga : Callback := ⟨fun a => (unsSet a "paga" (Obj.vnat 42), none)⟩

/-- The `tl.paga` rule: `cache(dict(uns="paga"), default_fname="paga")`. -/
def pagaRule : Rule := ⟨["uns"], [KeySpec.litKey "paga"], some "paga", none, false⟩

/-- A cache file holding a single stale `uns/paga` value. -/
def c3Fs : FS := some [(("uns", EKey.path ["paga"]), Obj.vnat 1)]

/-- A forced call on the paga rule against an existing cache file. -/
def c3Run : Except WrapErr (FS × AnnData × Ret × Nat) :=
  wrapper pagaRule ".pickle" false (some cbPaga) []
    ⟨none, true, false, true, false, false⟩ c3Fs freshAdata

/-- The same forced call with `call=False`. -/
def c3RunNoCall : Except WrapErr (FS × AnnData × Ret × Nat) :=
  wrapper pagaRule ".pickle" false (some cbPaga) []
    ⟨none, true, false, false, false, false⟩ c3Fs freshAdata

/-- A non-forced call on the paga rule against a cache file whose stored
`uns/paga` value is the missing sentinel, with `skip=False`. -/
def c4Run : Except WrapErr (FS × AnnData × Ret × Nat) :=
  wrapper pagaRule ".pickle" false (some cbPaga) []
    ⟨none, false, false, true, false, false⟩
    (some [(("uns", EKey.path ["paga"]), Obj.vnone)]) freshAdata

/-- The `wrap(fn)` closure of `Cache._init_pl`: returns early when the
transient key is already present, otherwise renders (here: a raster object
`Obj.vnat 9` standing for the captured buffer) and stores it under the
transient key; always returns `None`. -/
def cbPlot : Callback :=
  ⟨fun a =>
    match unsGet a with
    | some _ => (a, none)
    | none => (unsSet a SC_TMP_PLOT_KEY (Obj.vnat 9), none)⟩

/-- A plot rule: `cache(dict(uns=SC_TMP_PLOT_KEY), default_fname=...,
default_fn=wrap(fn), is_plot=True)`. -/
def plotRule : Rule :=
  ⟨["uns"], [KeySpec.litKey SC_TMP_PLOT_KEY], some "plot", some cbPlot, true⟩

/-- A cache file holding a captured plot buffer under the transient key. -/
def fsPlot : FS := some [(("uns", EKey.path [SC_TMP_PLOT_KEY]), Obj.vnat 9)]

/-- Flags of a plain (non-forced, non-copying) call. -/
def plotLoadFlags : Flags := ⟨some "plot", false, false, true, false, false⟩

/-- A forced call on the plot rule. -/
def c7ForceRun : Except WrapErr (FS × AnnData × Ret × Nat) :=
  wrapper plotRule ".pickle" false none []
    ⟨some "plot", true, false, true, false, false⟩ fsPlot freshAdata

/-- The duplicate-producing computation a `copy=True`-honouring callback
performs. -/
def gPaga (a : AnnData) : AnnData := unsSet a "paga" (Obj.vnat 7)

/-- A callback honouring the `copy` flag left in `kwargs`: it leaves the
passed container untouched and returns a duplicate carrying the new
values. -/
def cbCopy : Callback := ⟨fun a => (a, some (gPaga a))⟩

end Scachepy

namespace Scachepy

/-! Helper lemmas. -/

/-- A dict assignment is visible to a subsequent lookup of the same key. -/
theorem lookup_dictSet_self {α : Type} (es : List (String × α)) (k : String)
    (v : α) : (dictSet es k v).lookup k = some v := by
  induction es with
  | nil => simp [dictSet, List.lookup]
  | cons p tl ih =>
    obtain ⟨k1, v1⟩ := p
    by_cases h : k1 = k
    · subst h
      simp [dictSet, List.lookup]
    · have hk : (k == k1) = false := beq_eq_false_iff_ne.mpr (Ne.symm h)
      simp [dictSet, List.lookup, h, ih, beq_iff_eq, hk]

/-- Writing a value under a key chain into an empty dict creates the nested
dicts and a subsequent descent along the same chain finds the value. -/
theorem setPathObj_fresh (init : List String) (last : String) (v : Obj) :
    ∃ o2, setPathObj (Obj.dict []) init last v = some o2
      ∧ descend o2 (init ++ [last]) = Except.ok v := by
  induction init with
  | nil =>
    refine ⟨Obj.dict [(last, v)], rfl, ?_⟩
    simp [descend, List.lookup]
  | cons k ks ih =>
    obtain ⟨o2, h1, h2⟩ := ih
    refine ⟨Obj.dict [(k, o2)], ?_, ?_⟩
    · simp [setPathObj, List.lookup, h1, dictSet]
    · simp [descend, List.lookup, h2]

/-- The zip driving the save loop is empty whenever its third sequence
(`watcher_keys`) is empty. -/
theorem zip4_nil_third {α β γ δ : Type} (as : List α) (bs : List β)
    (ds : List δ) : zip4 as bs ([] : List γ) ds = [] := by
  cases as <;> cases bs <;> cases ds <;> rfl

/-- With an empty `watcher_keys` sequence — the Python default `{}`, which is
what `backend.save` receives from `_create_cache_fn.wrapper` — the save loop
runs zero iterations and the record written is empty, whatever the source
object and key specifications. -/
theorem pbSave_no_watcher_keys (adataQ : Option AnnData) (attrs : List String)
    (keySpecs : List KeySpec) (keyhint : Option KeyHint)
    (watchers : List (String × List (String × String))) (skipNF : Bool)
    (pv : List String) (isOpt : List Bool) :
    pbSave adataQ attrs keySpecs keyhint [] watchers skipNF pv isOpt
      = Except.ok [] := by
  simp [pbSave, zip4_nil_third, saveLoop]

/-- A lookup never finds a key that a filter just removed. -/
theorem lookup_filter_out {α : Type} (es : List (String × α)) (k : String) :
    (es.filter (fun p => !(p.1 == k))).lookup k = none := by
  induction es with
  | nil => rfl
  | cons p tl ih =>
    obtain ⟨k1, v1⟩ := p
    by_cases h : k1 = k
    · subst h
      simp [List.filter, List.lookup, ih]
    · have hk : (k == k1) = false := beq_eq_false_iff_ne.mpr (Ne.symm h)
      have hk1 : (k1 == k) = false := beq_eq_false_iff_ne.mpr h
      simp [List.filter, List.lookup, hk, hk1, ih]

/-- After `del adata.uns[SC_TMP_PLOT_KEY]` succeeds, the transient key is
gone. -/
theorem unsGet_unsDel (a a2 : AnnData) (h : unsDel a = some a2) :
    unsGet a2 = none := by
  unfold unsDel at h
  split at h
  case _ es =>
    split at h
    · injection h with h2
      subst h2
      simp [unsGet, setAttr, lookup_dictSet_self, lookup_filter_out]
    · exact Option.noConfusion h
  case _ => exact Option.noConfusion h

/-- A non-recache `cache_fn` call reports failure when no cache file
exists. -/
theorem cacheFn_load_nofile (ext : String) (df : Option String)
    (attrs : List String) (ks : List KeySpec) (target : Option AnnData)
    (fn : Option String) (vb sk : Bool) (pv : List String) :
    (cacheFn ext df attrs ks target fn false vb sk pv none).2.2.1 = false := by
  unfold cacheFn
  split
  · rfl
  · cases target <;> rfl

/-- Shape of every successful plot-rule call: the transient key has been
deleted from the returned container; the return value is nothing or an
image; it is nothing on the forced branch and on the no-cache-file (compute
and save) branch. -/
theorem wrapper_plot_shape (r : Rule) (ext : String) (isRaw : Bool)
    (cb0 : Option Callback) (pv : List String) (fl : Flags) (fs : FS)
    (adata : AnnData) (out : FS × AnnData × Ret × Nat)
    (hp : r.isPlot = true)
    (hok : wrapper r ext isRaw cb0 pv fl fs adata = Except.ok out) :
    unsGet out.2.1 = none
    ∧ (out.2.2.1 = Ret.nothing ∨ ∃ d, out.2.2.1 = Ret.image d)
    ∧ (fl.force = true → out.2.2.1 = Ret.nothing)
    ∧ (fl.force = false → fs = none → out.2.2.1 = Ret.nothing) := by
  obtain ⟨ra, rk, rdf, rfn, rp⟩ := r
  have hrp : rp = true := hp
  subst hrp
  simp only [wrapper, Bool.not_true, Bool.and_false, Bool.false_eq_true,
    eq_self_iff_true, if_true, if_false] at hok
  split at hok
  · exact Except.noConfusion hok
  split at hok
  · exact Except.noConfusion hok
  split at hok
  case isTrue hforce =>
    split at hok
    · exact Except.noConfusion hok
    rename_i cb hcb
    split at hok
    · exact Except.noConfusion hok
    split at hok
    · exact Except.noConfusion hok
    rename_i a2 hdel
    injection hok with h2
    subst h2
    exact ⟨unsGet_unsDel _ _ hdel, Or.inl rfl, fun _ => rfl,
      fun hf _ => absurd hforce (by simp [hf])⟩
  case isFalse hforce =>
    split at hok
    case isTrue hfound =>
      repeat' split at hok
      all_goals
        first
          | exact Except.noConfusion hok
          | (injection hok with h2
             subst h2
             exact ⟨unsGet_unsDel _ _ (by assumption), Or.inl rfl,
               fun _ => rfl, fun _ _ => rfl⟩)
    case isFalse hfound =>
      split at hok
      · exact Except.noConfusion hok
      rename_i dat hdat
      split at hok
      · exact Except.noConfusion hok
      rename_i a2 hdel
      injection hok with h2
      subst h2
      refine ⟨unsGet_unsDel _ _ hdel, Or.inr ⟨dat, rfl⟩,
        fun hf => absurd hf hforce, ?_⟩
      intro _ hfs
      subst hfs
      exact absurd (cacheFn_load_nofile ext rdf ra rk (some adata) fl.fname
        fl.verbose fl.skipNF pv) hfound

/-! Claim theorems. -/

/-- Claim C5: for a Pattern key spec, when the pattern-captured names of the
container's existing keys intersected with `possible_vals` contain exactly
one name, resolution yields uniquely the corresponding full key, and the
disambiguation hint is never consulted (the result is the same for every
hint, including none).  Concretely, with keys `leiden_graph` and
`louvain_graph`, pattern `(.+)_graph$` and `possible_vals = {"leiden"}`,
resolution yields `leiden_graph`. -/
theorem c5_unique_intersection :
    (∀ (adata : AnnData) (pv : List String)
       (w : List (String × List (String × String))) (hint : Option KeyHint)
       (attr : String) (p : String → Option String) (wk : String) (opt : Bool)
       (km : List (String × String)) (c k : String),
       buildKm p (objKeys ((adata.attrs.lookup attr).getD (Obj.dict []))) = km →
       (km.map Prod.fst).filter (fun x => pv.contains x) = [c] →
       km.lookup c = some k →
       convertKey adata pv w hint attr (KeySpec.patKey p) wk opt
         = Except.ok (ConvRes.single (some k)))
    ∧ (∀ hint : Option KeyHint,
       convertKey leidenAdata ["leiden"] [] hint "uns"
           (KeySpec.patKey graphPattern) "uns" false
         = Except.ok (ConvRes.single (some "leiden_graph"))) := by
  constructor
  · intro adata pv w hint attr p wk opt km c k hkm hres hk
    simp only [convertKey, hkm, hres, List.length_singleton, List.headD, hk]
    norm_num
  · intro hint
    rfl

/-- Witness for C5: the general branch applied at the concrete
leiden/louvain container, with a hint supplied to show it is not
consulted. -/
theorem c5_unique_intersection_witness :
    convertKey leidenAdata ["leiden"] [] (some (KeyHint.hsub "lou")) "uns"
        (KeySpec.patKey graphPattern) "uns" false
      = Except.ok (ConvRes.single (some "leiden_graph")) :=
  c5_unique_intersection.1 leidenAdata ["leiden"] [] (some (KeyHint.hsub "lou"))
    "uns" graphPattern "uns" false
    [("leiden", "leiden_graph"), ("louvain", "louvain_graph")]
    "leiden" "leiden_graph" rfl rfl rfl

/-- Claim C10: singleton fallback without hint — when the intersection of
the captured names with `possible_vals` is empty but exactly one existing
key matches the pattern, resolution returns that single full key without
consulting any disambiguation hint, even though the key's captured name was
not among the call's arguments. -/
theorem c10_singleton_fallback :
    ∀ (adata : AnnData) (pv : List String)
      (w : List (String × List (String × String))) (hint : Option KeyHint)
      (attr : String) (p : String → Option String) (wk : String) (opt : Bool)
      (c k : String),
      buildKm p (objKeys ((adata.attrs.lookup attr).getD (Obj.dict [])))
        = [(c, k)] →
      pv.contains c = false →
      convertKey adata pv w hint attr (KeySpec.patKey p) wk opt
        = Except.ok (ConvRes.single (some k)) := by
  intro adata pv w hint attr p wk opt c k hkm hc
  simp only [convertKey, hkm, List.map_cons, List.map_nil, List.filter, hc,
    List.length_nil, List.length_singleton, List.head?]
  norm_num

/-- Witness for C10: only `louvain_graph` matches `(.+)_graph$` and the call
arguments name only `leiden`, yet resolution returns `louvain_graph` with no
hint. -/
theorem c10_singleton_fallback_witness :
    convertKey louvainOnlyAdata ["leiden"] [] none "uns"
        (KeySpec.patKey graphPattern) "uns" false
      = Except.ok (ConvRes.single (some "louvain_graph")) :=
  c10_singleton_fallback louvainOnlyAdata ["leiden"] [] none "uns"
    graphPattern "uns" false "louvain" "louvain_graph" rfl rfl

/-- Counterexample to C6 as stated: with keys `leiden_graph` and
`louvain_graph` and `possible_vals = {"leiden", "louvain"}` (both captured
names intersect), resolution without a hint fails with the TypeError of
backends.py line 177 (the intersection set hashed against the alias dict,
line 202) — not with an error enumerating candidates: no candidate-carrying
AssertionError is raised, contradicting "fails with a fatal error whose
message enumerates all candidate keys". -/
theorem c6_counterexample :
    convertKey leidenAdata ["leiden", "louvain"] [] none "uns"
        (KeySpec.patKey graphPattern) "uns" false
      = Except.error SaveErr.unhashableSet
    ∧ ¬ ∃ cs, convertKey leidenAdata ["leiden", "louvain"] [] none "uns"
        (KeySpec.patKey graphPattern) "uns" false
      = Except.error (SaveErr.ambiguous cs) :=
  ⟨rfl, fun ⟨_, h⟩ => by injection h with h2; exact SaveErr.noConfusion h2⟩

/-- Claim C6 as amended: ambiguous pattern resolution fails, but only the
empty-intersection form fails as claimed — when the intersection with
`possible_vals` is empty, more than one key matches, and no hint is
supplied, the AssertionError enumerates all candidate full keys (concretely,
with keys `leiden_graph` and `louvain_graph`, pattern `(.+)_graph$`, empty
`possible_vals` and no hint, resolution fails naming both keys).  When more
than one captured name intersects `possible_vals`, resolution instead dies
with the TypeError of backends.py line 177 (the intersection set hashed
against the alias dict), which enumerates nothing and strikes whether or not
a hint is supplied. -/
theorem c6_ambiguous_no_hint :
    (∀ (adata : AnnData) (pv : List String)
       (w : List (String × List (String × String)))
       (hint : Option KeyHint)
       (attr : String) (p : String → Option String) (wk : String) (opt : Bool)
       (km : List (String × String)) (res : List String),
       buildKm p (objKeys ((adata.attrs.lookup attr).getD (Obj.dict []))) = km →
       (km.map Prod.fst).filter (fun x => pv.contains x) = res →
       1 < res.length →
       convertKey adata pv w hint attr (KeySpec.patKey p) wk opt
         = Except.error SaveErr.unhashableSet)
    ∧ (∀ (adata : AnnData) (pv : List String)
       (w : List (String × List (String × String)))
       (attr : String) (p : String → Option String) (wk : String) (opt : Bool)
       (km : List (String × String)),
       buildKm p (objKeys ((adata.attrs.lookup attr).getD (Obj.dict []))) = km →
       (km.map Prod.fst).filter (fun x => pv.contains x) = [] →
       1 < km.length →
       convertKey adata pv w none attr (KeySpec.patKey p) wk opt
         = Except.error (SaveErr.ambiguous (km.map Prod.snd)))
    ∧ convertKey leidenAdata [] [] none "uns"
          (KeySpec.patKey graphPattern) "uns" false
        = Except.error (SaveErr.ambiguous ["leiden_graph", "louvain_graph"]) := by
  refine ⟨?_, ?_, rfl⟩
  · intro adata pv w hint attr p wk opt km res hkm hres hlen
    simp only [convertKey, hkm, hres]
    rw [if_neg (show ¬ res.length = 0 by omega),
      if_pos (show ¬ res.length = 1 by omega)]
  · intro adata pv w attr p wk opt km hkm hres hlen
    simp only [convertKey, hkm, hres, List.length_nil]
    rw [if_pos trivial,
      if_neg (show ¬ (km.length = 0 ∧ opt = true) from
        fun h => absurd h.1 (by omega)),
      if_pos (show ¬ km.length = 1 by omega)]

/-- Witness for the amended C6: at the concrete leiden/louvain container,
the empty-intersection branch enumerates both full keys, and the
multi-intersection branch raises the unhashable-set TypeError even with a
hint supplied. -/
theorem c6_ambiguous_no_hint_witness :
    convertKey leidenAdata ["leiden", "louvain"] []
        (some (KeyHint.hsub "lei")) "uns"
        (KeySpec.patKey graphPattern) "uns" false
      = Except.error SaveErr.unhashableSet :=
  c6_ambiguous_no_hint.1 leidenAdata ["leiden", "louvain"] []
    (some (KeyHint.hsub "lei")) "uns" graphPattern "uns" false
    [("leiden", "leiden_graph"), ("louvain", "louvain_graph")]
    ["leiden", "louvain"] rfl rfl (by decide)

/-- Counterexample to C1 as stated: the stored value `None` IS the missing
sentinel, so a record holding `(p, None)` does not load — with the default
`skip=False` the backend raises (RuntimeError) and the fresh container is
left without the value at `p`. -/
theorem c1_counterexample :
    pbLoad false false [(("uns", EKey.path ["foo"]), Obj.vnone)] freshAdata
      = (freshAdata, [], some (LoadErr.missingValue "uns"))
    ∧ getAtPath (pbLoad false false [(("uns", EKey.path ["foo"]), Obj.vnone)]
        freshAdata).1 "uns" (EKey.path ["foo"]) ≠ some Obj.vnone :=
  ⟨rfl, fun h => Option.noConfusion h⟩

/-- Claim C1 as amended: round trip for every value OTHER than `None` (the
missing-value sentinel).  First, `save` on a container holding `v` under a
literal key resolves exactly the record `[(p, v)]` (the file contents);
second, loading a one-pair record `[(p, v)]` with a non-`None` `v` into a
fresh container on which `p` is resolvable succeeds and leaves the container
holding `v` at `p`. -/
theorem c1_round_trip :
    (∀ (c : AnnData) (attr k : String) (obj v : Obj),
       c.attrs.lookup attr = some obj →
       descend obj [k] = Except.ok v →
       pbSave (some c) [attr] [KeySpec.litKey k] none [attr] [] false [] [false]
         = Except.ok [((attr, EKey.path [k]), v)])
    ∧ (∀ (attr : String) (ek : EKey) (v : Obj) (fresh : AnnData),
       isNoneObj v = false →
       resolvableFresh fresh attr ek →
       (pbLoad false false [((attr, ek), v)] fresh).2.2 = none
       ∧ getAtPath (pbLoad false false [((attr, ek), v)] fresh).1 attr ek
           = some v) := by
  constructor
  · intro c attr k obj v hobj hdesc
    simp [pbSave, zip4, saveLoop, convertKey, getData, getVal, hobj, hdesc,
      List.lookup]
  · intro attr ek v fresh hv hres
    cases ek with
    | slot =>
      obtain ⟨obj, hobj⟩ := Option.isSome_iff_exists.mp hres
      constructor
      · simp [pbLoad, loadEntries, loadEntry, hv, hobj]
      · simp [pbLoad, loadEntries, loadEntry, hv, hobj, getAtPath, setAttr,
          lookup_dictSet_self]
    | path ks =>
      obtain ⟨hne, hdict⟩ := hres
      obtain ⟨o2, h1, h2⟩ := setPathObj_fresh ks.dropLast (ks.getLast hne) v
      have hlast : ks.getLast? = some (ks.getLast hne) :=
        List.getLast?_eq_getLast ks hne
      have hsplit : ks.dropLast ++ [ks.getLast hne] = ks :=
        List.dropLast_append_getLast hne
      constructor
      · simp [pbLoad, loadEntries, loadEntry, hv, hdict, hlast, h1]
      · simp only [pbLoad, loadEntries, loadEntry, hv, hdict, hlast, h1,
          Bool.false_eq_true, if_false, getAtPath, setAttr,
          lookup_dictSet_self]
        rw [← hsplit] at *
        simp [getAtPath, setAttr, lookup_dictSet_self, h2]

/-- Witness for the amended C1: a nested two-level path round-trips a
non-`None` value through a fresh container. -/
theorem c1_round_trip_witness :
    (pbLoad false false [(("uns", EKey.path ["a", "b"]), Obj.vnat 5)]
        freshAdata).2.2 = none
    ∧ getAtPath (pbLoad false false
        [(("uns", EKey.path ["a", "b"]), Obj.vnat 5)] freshAdata).1
        "uns" (EKey.path ["a", "b"]) = some (Obj.vnat 5) :=
  c1_round_trip.2 "uns" (EKey.path ["a", "b"]) (Obj.vnat 5) freshAdata rfl
    ⟨by simp, rfl⟩

/-- Claim C8 (code bug): loading a stored entry whose target category is
absent but shape-inferable (`obsm` sized by `n_obs`, `varm` by `n_vars`)
does NOT auto-create the category and complete — `PickleBackend.load`
computes the shape and then evaluates `assert len(keys) == 1`, where `keys`
is an undefined name, raising NameError (backends.py line 91). -/
theorem c8_load_missing_category_nameerror :
    pbLoad false false [(("obsm", EKey.path ["X_pca"]), Obj.vnat 7)] noObsmAdata
      = (noObsmAdata, [], some LoadErr.nameError)
    ∧ pbLoad false false [(("varm", EKey.path ["PCs"]), Obj.vnat 7)] noObsmAdata
      = (noObsmAdata, [], some LoadErr.nameError) :=
  ⟨rfl, rfl⟩

/-- Counterexample to C4 as stated: a stored sentinel value with
`skip=False` does NOT surface to the orchestrator's caller — the
`try/except` of `_create_cache_fn.wrapper` swallows the backend's
RuntimeError, reports a cache miss, and the orchestrator recomputes: the
call returns normally (with the callback invoked once). -/
theorem c4_counterexample :
    c4Run = Except.ok (some [], setAttr freshAdata "uns"
        (Obj.dict [("paga", Obj.vnat 42)]), Ret.nothing, 1)
    ∧ ¬ ∃ e, c4Run = Except.error e :=
  ⟨rfl, fun ⟨_, h⟩ => Except.noConfusion h⟩

/-- Claim C4 as amended: inside the backend, a stored sentinel value warns,
leaves the path unset and continues under `skip=True`, and raises
(fatally for the load) under `skip=False`; but the orchestrator catches the
latter exception and treats the call as a cache miss, recomputing and
overwriting — the failure does not surface to the orchestrator's caller. -/
theorem c4_missing_value_policy :
    (∀ (a : AnnData) (attr : String) (k : EKey) (vb : Bool),
       loadEntry vb true a ((attr, k), Obj.vnone)
         = (a, [LoadWarn.missingSkipped attr], none))
    ∧ (∀ (a : AnnData) (attr : String) (k : EKey) (vb : Bool),
       loadEntry vb false a ((attr, k), Obj.vnone)
         = (a, [], some (LoadErr.missingValue attr)))
    ∧ pbLoad false true
        [(("uns", EKey.path ["bad"]), Obj.vnone),
         (("uns", EKey.path ["good"]), Obj.vnat 1)] freshAdata
      = (setAttr freshAdata "uns" (Obj.dict [("good", Obj.vnat 1)]),
         [LoadWarn.missingSkipped "uns"], none)
    ∧ c4Run = Except.ok (some [], setAttr freshAdata "uns"
        (Obj.dict [("paga", Obj.vnat 42)]), Ret.nothing, 1) :=
  ⟨fun a attr k vb => rfl, fun a attr k vb => rfl, rfl, rfl⟩

/-- Claim C3 (code bug): `force=True` always invokes the callback exactly
once — also with `call=False` and with a cache file present — and always
overwrites the file; but the file is overwritten with the EMPTY record, not
the freshly resolved values: the call site of `backend.save` passes no
`watcher_keys`, whose default `{}` empties the `zip` driving the save loop.
The last conjunct shows the record the claim expects, produced only when
`watcher_keys` is supplied. -/
theorem c3_force_overwrites_with_empty_record :
    c3Run = Except.ok (some [], setAttr freshAdata "uns"
        (Obj.dict [("paga", Obj.vnat 42)]), Ret.nothing, 1)
    ∧ c3RunNoCall = Except.ok (some [], setAttr freshAdata "uns"
        (Obj.dict [("paga", Obj.vnat 42)]), Ret.nothing, 1)
    ∧ (some [] : FS) ≠ some [(("uns", EKey.path ["paga"]), Obj.vnat 42)]
    ∧ pbSave (some (setAttr freshAdata "uns"
          (Obj.dict [("paga", Obj.vnat 42)])))
        ["uns"] [KeySpec.litKey "paga"] none ["uns"] [] false [] [false]
      = Except.ok [(("uns", EKey.path ["paga"]), Obj.vnat 42)] :=
  ⟨rfl, rfl,
   fun h => by injection h with h2; exact List.noConfusion h2, rfl⟩

/-- Claim C2: copy isolation.  For a callback that honours the `copy` flag
kept in `kwargs` (it leaves the container it is handed untouched and returns
an independent duplicate `g a` carrying the new values), a `copy=True`
invocation leaves the caller's original container unmutated on every path:
on a cache miss the callback is invoked once, the duplicate is what gets
saved (the file equals the result of saving the duplicate) and is returned;
under `force` likewise; on a cache hit the load is applied to the
orchestrator's private copy, which is returned, and the original is
untouched. -/
theorem c2_copy_isolation (ra : List String) (rk : List KeySpec)
    (rdf : Option String) (rfn : Option Callback) (ext f : String)
    (cb : Callback) (g : AnnData → AnnData) (pv : List String)
    (vb sk : Bool) (adata : AnnData)
    (Hcb : ∀ a, cb.run a = (a, some (g a))) :
    (wrapper ⟨ra, rk, rdf, rfn, false⟩ ext false (some cb) pv
        ⟨some f, false, vb, true, sk, true⟩ none adata
      = Except.ok ((cacheFn ext rdf ra rk (some (g adata)) (some f) true false
          sk pv none).1, adata, Ret.adataRet (g adata), 1))
    ∧ (∀ fs : FS,
       wrapper ⟨ra, rk, rdf, rfn, false⟩ ext false (some cb) pv
          ⟨some f, true, vb, true, sk, true⟩ fs adata
        = Except.ok ((cacheFn ext rdf ra rk (some (g adata)) (some f) true vb
            sk pv fs).1, adata, Ret.adataRet (g adata), 1))
    ∧ (∀ (es : List Entry) (a1 : AnnData) (ws : List LoadWarn),
       pbLoad vb sk es adata = (a1, ws, none) →
       wrapper ⟨ra, rk, rdf, rfn, false⟩ ext false (some cb) pv
          ⟨some f, false, vb, true, sk, true⟩ (some es) adata
        = Except.ok (some es, adata, Ret.adataRet a1, 0)) := by
  refine ⟨?_, ?_, ?_⟩
  · simp [wrapper, cacheFn, fnameResolve, pbSave_no_watcher_keys, Hcb, retOf]
  · intro fs
    simp [wrapper, cacheFn, fnameResolve, pbSave_no_watcher_keys, Hcb, retOf]
  · intro es a1 ws hload
    simp [wrapper, cacheFn, fnameResolve, pbSave_no_watcher_keys, Hcb, retOf,
      hload]

/-- Witness for C2: the copy-honouring paga callback on a fresh container
with no cache file. -/
theorem c2_copy_isolation_witness :
    wrapper ⟨["uns"], [KeySpec.litKey "paga"], some "paga", none, false⟩
        ".pickle" false (some cbCopy) []
        ⟨some "f", false, false, true, false, true⟩ none freshAdata
      = Except.ok ((cacheFn ".pickle" (some "paga") ["uns"]
          [KeySpec.litKey "paga"] (some (gPaga freshAdata)) (some "f") true
          false false [] none).1, freshAdata,
          Ret.adataRet (gPaga freshAdata), 1) :=
  (c2_copy_isolation ["uns"] [KeySpec.litKey "paga"] (some "paga") none
    ".pickle" "f" cbCopy gPaga [] false false freshAdata
    (fun a => rfl)).1

/-- Counterexample to C7 as stated: on the ForceCompute branch of a plot
rule the transient key is deleted but the call returns nothing — no image
object is built, contradicting "converts ... into an image object returned
to the caller ... on each of the three terminating branches". -/
theorem c7_counterexample :
    c7ForceRun = Except.ok (some [], freshAdata, Ret.nothing, 1)
    ∧ ¬ ∃ d, Ret.nothing = Ret.image d :=
  ⟨rfl, fun ⟨_, h⟩ => Ret.noConfusion h⟩

/-- Claim C7 as amended: on every terminating branch of a plot-capture rule
(Loaded, Saved, ForceCompute) the orchestrator deletes the transient key
from the container's unstructured mapping before returning; but the raster
buffer is converted into an image object returned to the caller only on the
Loaded branch — the Saved and ForceCompute branches return nothing. -/
theorem c7_plot_branches :
    (∀ (r : Rule) (ext : String) (isRaw : Bool) (cb0 : Option Callback)
       (pv : List String) (fl : Flags) (fs : FS) (adata : AnnData)
       (out : FS × AnnData × Ret × Nat),
       r.isPlot = true →
       wrapper r ext isRaw cb0 pv fl fs adata = Except.ok out →
       unsGet out.2.1 = none)
    ∧ (∀ (r : Rule) (ext : String) (isRaw : Bool) (cb0 : Option Callback)
       (pv : List String) (fl : Flags) (fs : FS) (adata : AnnData)
       (out : FS × AnnData × Ret × Nat),
       r.isPlot = true → fl.force = true →
       wrapper r ext isRaw cb0 pv fl fs adata = Except.ok out →
       out.2.2.1 = Ret.nothing)
    ∧ (∀ (r : Rule) (ext : String) (isRaw : Bool) (cb0 : Option Callback)
       (pv : List String) (fl : Flags) (adata : AnnData)
       (out : FS × AnnData × Ret × Nat),
       r.isPlot = true → fl.force = false →
       wrapper r ext isRaw cb0 pv fl none adata = Except.ok out →
       out.2.2.1 = Ret.nothing)
    ∧ wrapper plotRule ".pickle" false none [] plotLoadFlags fsPlot freshAdata
      = Except.ok (fsPlot, freshAdata, Ret.image (Obj.vnat 9), 0) := by
  refine ⟨?_, ?_, ?_, rfl⟩
  · intro r ext isRaw cb0 pv fl fs adata out hp hok
    exact (wrapper_plot_shape r ext isRaw cb0 pv fl fs adata out hp hok).1
  · intro r ext isRaw cb0 pv fl fs adata out hp hf hok
    exact (wrapper_plot_shape r ext isRaw cb0 pv fl fs adata out hp
      hok).2.2.1 hf
  · intro r ext isRaw cb0 pv fl adata out hp hf hok
    exact (wrapper_plot_shape r ext isRaw cb0 pv fl none adata out hp
      hok).2.2.2 hf rfl

/-- Witness for the amended C7: the transient key is absent from the
container returned by the concrete forced plot call. -/
theorem c7_plot_branches_witness : unsGet freshAdata = none :=
  c7_plot_branches.1 plotRule ".pickle" false none []
    ⟨some "plot", true, false, true, false, false⟩ fsPlot freshAdata
    (some [], freshAdata, Ret.nothing, 1) rfl rfl

/-- Claim C9: for a plot rule the `copy` flag is ignored — a call with
`copy=True` is indistinguishable from one with `copy=False` (the caller's
container is mutated in place, no duplicate is created or returned), and a
successful plot call returns an image object or nothing, never a
container. -/
theorem c9_plot_ignores_copy :
    (∀ (ra : List String) (rk : List KeySpec) (rdf : Option String)
       (rfn : Option Callback) (ext : String) (isRaw : Bool)
       (cb0 : Option Callback) (pv : List String) (fn : Option String)
       (force vb call sk : Bool) (fs : FS) (adata : AnnData),
       wrapper ⟨ra, rk, rdf, rfn, true⟩ ext isRaw cb0 pv
           ⟨fn, force, vb, call, sk, true⟩ fs adata
         = wrapper ⟨ra, rk, rdf, rfn, true⟩ ext isRaw cb0 pv
           ⟨fn, force, vb, call, sk, false⟩ fs adata)
    ∧ (∀ (r : Rule) (ext : String) (isRaw : Bool) (cb0 : Option Callback)
       (pv : List String) (fl : Flags) (fs : FS) (adata : AnnData)
       (out : FS × AnnData × Ret × Nat),
       r.isPlot = true →
       wrapper r ext isRaw cb0 pv fl fs adata = Except.ok out →
       (out.2.2.1 = Ret.nothing ∨ ∃ d, out.2.2.1 = Ret.image d)) := by
  constructor
  · intro ra rk rdf rfn ext isRaw cb0 pv fn force vb call sk fs adata
    rfl
  · intro r ext isRaw cb0 pv fl fs adata out hp hok
    exact (wrapper_plot_shape r ext isRaw cb0 pv fl fs adata out hp hok).2.1

/-- Witness for C9: the concrete loaded plot call (invoked with
`copy=True`) returns an image. -/
theorem c9_plot_ignores_copy_witness :
    Ret.image (Obj.vnat 9) = Ret.nothing
    ∨ ∃ d, Ret.image (Obj.vnat 9) = Ret.image d :=
  c9_plot_ignores_copy.2 plotRule ".pickle" false none []
    ⟨some "plot", false, false, true, false, true⟩ fsPlot freshAdata
    (fsPlot, freshAdata, Ret.image (Obj.vnat 9), 0) rfl rfl

end Scachepy
